import Mathlib

/-!
Verification of the plugin-decoration core of the router repository: a shallow
embedding of `src/plugins/callback_plugin.rs`, together with definitions
modelled from the specification for the parts of the system (pipeline
assembly, execution fan-out) whose sources are not part of the repository
snapshot under `src/`.
-/

/-- Outcome of a Rust computation that may panic: `ok` is a normal return,
`panicked msg` models a Rust panic carrying its message — an abort of the
computation, not an error value handed to the caller. -/
inductive PanicOr (α : Type) where
  | ok : α → PanicOr α
  | panicked : String → PanicOr α
deriving DecidableEq

/-- `BoxService<Req, Res, Err>`: a stage mapping a request to a response or an
error. The asynchronous suspension of the Rust service is irrelevant to the
value-level contract and is elided. -/
abbrev Stage (Req Res Err : Type) := Req → Except Err Res

/-- tower `map_request`: transform the request before the inner service sees
it. The hook passed by the source is an infallible plain function. -/
def mapRequest {Req1 Req2 Res Err : Type} (f : Req1 → Req2)
    (s : Stage Req2 Res Err) : Stage Req1 Res Err :=
  fun req => s (f req)

/-- tower `map_response`: transform the success response of the inner service;
the error branch passes through untouched. -/
def mapResponse {Req Res1 Res2 Err : Type} (f : Res1 → Res2)
    (s : Stage Req Res1 Err) : Stage Req Res2 Err :=
  fun req => (s req).map f

/-- The `CallbackPlugin` trait of `src/plugins/callback_plugin.rs`, including
its default method bodies: every hook defaults to passing the value through.
`RQ`, `PR`, `RS`, `SR` stand for `RouterRequest`, `PlannedRequest`,
`RouterResponse` and `SubgraphRequest`, kept abstract. -/
structure CallbackPlugin (RQ PR RS SR : Type) where
  before_router : RQ → RQ := fun r => r
  after_router : RS → RS := fun r => r
  before_query_planning : RQ → RQ := fun r => r
  after_query_planning : PR → PR := fun r => r
  before_execution : PR → PR := fun r => r
  after_execution : RS → RS := fun r => r
  before_subgraph : String → SR → SR := fun _ r => r
  after_subgraph : String → RS → RS := fun _ r => r

variable {RQ PR RS SR Err : Type}

/-- `impl Plugin for CallbackPluginImplementation`, method `router_service`:
`ServiceBuilder::new().map_request(before_router).map_response(after_router)`
around the given service. -/
def router_service (p : CallbackPlugin RQ PR RS SR)
    (service : Stage RQ RS Err) : Stage RQ RS Err :=
  mapRequest p.before_router (mapResponse p.after_router service)

/-- `impl Plugin`, method `query_planning_service`. -/
def query_planning_service (p : CallbackPlugin RQ PR RS SR)
    (service : Stage RQ PR Err) : Stage RQ PR Err :=
  mapRequest p.before_query_planning (mapResponse p.after_query_planning service)

/-- `impl Plugin`, method `execution_service`. -/
def execution_service (p : CallbackPlugin RQ PR RS SR)
    (service : Stage PR RS Err) : Stage PR RS Err :=
  mapRequest p.before_execution (mapResponse p.after_execution service)

/-- `impl Plugin`, method `subgraph_service`: the hooks are applied with the
backend name captured at decoration time. -/
def subgraph_service (p : CallbackPlugin RQ PR RS SR) (name : String)
    (service : Stage SR RS Err) : Stage SR RS Err :=
  mapRequest (p.before_subgraph name) (mapResponse (p.after_subgraph name) service)

/-- Modelled from the spec: the PipelineAssembler (spec section 4.5) is not part
of the repository snapshot under `src/`. Per section 4.2 it applies the ordered
plugin list P1..Pn to a base stage so that each application wraps the previous
result and "the last-registered plugin sits closest to the base stage": a right
fold of the blanket-implementation decoration over the registration list, shown
here for the router hook point. -/
def applyPlugins (ps : List (CallbackPlugin RQ PR RS SR))
    (base : Stage RQ RS Err) : Stage RQ RS Err :=
  ps.foldr (fun p s => router_service p s) base

/-- The panic message produced by the `with!` macro on a duplicate
registration. `macro_rules` does not substitute metavariables inside string
literal tokens, so the message is this literal text for every generated
setter. -/
def dupMsg : String :=
  "[< with _ $name >] cannot be invoked twice, please build an other one"

/-- The panic message of `with_before_subgraph` on a duplicate backend name;
`with_after_subgraph` reuses the same text (its message also says
`with_before_subgraph`). -/
def dupSubgraphMsg : String :=
  "with_before_subgraph cannot be invoked twice on the same service_name, please build an other one"

/-- `CallbackPluginBuilder`: one optional boxed hook per single-valued hook
point, a `Vec` of any-backend hooks, and a `HashMap` keyed by backend name for
the name-specific hooks, modelled as an association list whose reachable
values keep keys pairwise distinct (the setters insert only absent keys). The
`#[derive(Default)]` field values are the `:=` defaults. -/
structure CallbackPluginBuilder (RQ PR RS SR : Type) where
  before_router : Option (RQ → RQ) := none
  after_router : Option (RS → RS) := none
  before_query_planning : Option (RQ → RQ) := none
  after_query_planning : Option (PR → PR) := none
  before_execution : Option (PR → PR) := none
  after_execution : Option (RS → RS) := none
  before_any_subgraph : List (SR → SR) := []
  after_any_subgraph : List (RS → RS) := []
  before_subgraph : List (String × (SR → SR)) := []
  after_subgraph : List (String × (RS → RS)) := []

/-- `pub fn builder()`: the default (empty) builder. -/
def builder : CallbackPluginBuilder RQ PR RS SR := {}

/-- `HashMap::get` over the association-list model. -/
def lookupHook {α : Type} : List (String × α) → String → Option α
  | [], _ => none
  | (k, v) :: rest, name => if k = name then some v else lookupHook rest name

namespace CallbackPluginBuilder

/-- `pub fn build(self) -> Self {self}`. -/
def build (b : CallbackPluginBuilder RQ PR RS SR) : CallbackPluginBuilder RQ PR RS SR :=
  b

/-- `with!(before_router, ...)`: panics when the slot is already set,
otherwise records the hook. -/
def with_before_router (b : CallbackPluginBuilder RQ PR RS SR) (f : RQ → RQ) :
    PanicOr (CallbackPluginBuilder RQ PR RS SR) :=
  if b.before_router.isSome then .panicked dupMsg
  else .ok { b with before_router := some f }

/-- `with!(after_router, ...)`. -/
def with_after_router (b : CallbackPluginBuilder RQ PR RS SR) (f : RS → RS) :
    PanicOr (CallbackPluginBuilder RQ PR RS SR) :=
  if b.after_router.isSome then .panicked dupMsg
  else .ok { b with after_router := some f }

/-- `with!(before_query_planning, ...)`. -/
def with_before_query_planning (b : CallbackPluginBuilder RQ PR RS SR) (f : RQ → RQ) :
    PanicOr (CallbackPluginBuilder RQ PR RS SR) :=
  if b.before_query_planning.isSome then .panicked dupMsg
  else .ok { b with before_query_planning := some f }

/-- `with!(after_query_planning, ...)`. -/
def with_after_query_planning (b : CallbackPluginBuilder RQ PR RS SR) (f : PR → PR) :
    PanicOr (CallbackPluginBuilder RQ PR RS SR) :=
  if b.after_query_planning.isSome then .panicked dupMsg
  else .ok { b with after_query_planning := some f }

/-- `with!(before_execution, ...)`. -/
def with_before_execution (b : CallbackPluginBuilder RQ PR RS SR) (f : PR → PR) :
    PanicOr (CallbackPluginBuilder RQ PR RS SR) :=
  if b.before_execution.isSome then .panicked dupMsg
  else .ok { b with before_execution := some f }

/-- `with!(after_execution, ...)`. -/
def with_after_execution (b : CallbackPluginBuilder RQ PR RS SR) (f : RS → RS) :
    PanicOr (CallbackPluginBuilder RQ PR RS SR) :=
  if b.after_execution.isSome then .panicked dupMsg
  else .ok { b with after_execution := some f }

/-- `with_before_any_subgraph`: pushes onto the `Vec`, never fails. -/
def with_before_any_subgraph (b : CallbackPluginBuilder RQ PR RS SR) (f : SR → SR) :
    CallbackPluginBuilder RQ PR RS SR :=
  { b with before_any_subgraph := b.before_any_subgraph ++ [f] }

/-- `with_after_any_subgraph`: pushes onto the `Vec`, never fails. -/
def with_after_any_subgraph (b : CallbackPluginBuilder RQ PR RS SR) (f : RS → RS) :
    CallbackPluginBuilder RQ PR RS SR :=
  { b with after_any_subgraph := b.after_any_subgraph ++ [f] }

/-- `with_before_subgraph`: panics when the backend name is already present,
otherwise inserts the hook under the name. -/
def with_before_subgraph (b : CallbackPluginBuilder RQ PR RS SR)
    (service_name : String) (f : SR → SR) :
    PanicOr (CallbackPluginBuilder RQ PR RS SR) :=
  if (lookupHook b.before_subgraph service_name).isSome then .panicked dupSubgraphMsg
  else .ok { b with before_subgraph := b.before_subgraph ++ [(service_name, f)] }

/-- `with_after_subgraph`: panics when the backend name is already present,
otherwise inserts the hook under the name. -/
def with_after_subgraph (b : CallbackPluginBuilder RQ PR RS SR)
    (service_name : String) (f : RS → RS) :
    PanicOr (CallbackPluginBuilder RQ PR RS SR) :=
  if (lookupHook b.after_subgraph service_name).isSome then .panicked dupSubgraphMsg
  else .ok { b with after_subgraph := b.after_subgraph ++ [(service_name, f)] }

/-- `impl CallbackPlugin for CallbackPluginBuilder`: unset single-valued hooks
pass the value through; the subgraph before-hook folds the any-backend hooks
over the request in registration order and then applies the name-specific
hook; the subgraph after-hook applies the name-specific hook first and then
folds the any-backend hooks in registration order. -/
def toCallbackPlugin (b : CallbackPluginBuilder RQ PR RS SR) :
    CallbackPlugin RQ PR RS SR where
  before_router := fun r =>
    match b.before_router with
    | some f => f r
    | none => r
  after_router := fun r =>
    match b.after_router with
    | some f => f r
    | none => r
  before_query_planning := fun r =>
    match b.before_query_planning with
    | some f => f r
    | none => r
  after_query_planning := fun r =>
    match b.after_query_planning with
    | some f => f r
    | none => r
  before_execution := fun r =>
    match b.before_execution with
    | some f => f r
    | none => r
  after_execution := fun r =>
    match b.after_execution with
    | some f => f r
    | none => r
  before_subgraph := fun name req =>
    let req2 := b.before_any_subgraph.foldl (fun request callback => callback request) req
    match lookupHook b.before_subgraph name with
    | some f => f req2
    | none => req2
  after_subgraph := fun name res =>
    let res2 :=
      match lookupHook b.after_subgraph name with
      | some f => f res
      | none => res
    b.after_any_subgraph.foldl (fun response callback => callback response) res2

end CallbackPluginBuilder

/-- Observable events for tracing hook execution order. -/
inductive Ev where
  | before : Nat → Ev
  | base : Ev
  | after : Nat → Ev
deriving DecidableEq

/-- A tracing plugin: its router hooks append their index to the event log
carried by the request and the response. -/
def traceP (i : Nat) : CallbackPlugin (List Ev) Unit (List Ev) Unit :=
  { before_router := fun t => t ++ [Ev.before i],
    after_router := fun t => t ++ [Ev.after i] }

/-- A base stage that records its own invocation in the event log. -/
def baseStage : Stage (List Ev) (List Ev) Unit :=
  fun t => Except.ok (t ++ [Ev.base])

/-- Observable events for tracing subgraph hook execution order. -/
inductive SubEv where
  | any : Nat → SubEv
  | named : SubEv
deriving DecidableEq

/-- An instrumented any-backend hook that appends its index to the log. -/
def subAny (i : Nat) : List SubEv → List SubEv := fun t => t ++ [SubEv.any i]

/-- An instrumented name-specific hook that appends a marker to the log. -/
def subNamed : List SubEv → List SubEv := fun t => t ++ [SubEv.named]

/-- Register the instrumented any-backend before-hooks `ls` in order. -/
def anyChainB (ls : List Nat) :
    CallbackPluginBuilder Unit Unit (List SubEv) (List SubEv) :=
  ls.foldl (fun b i => b.with_before_any_subgraph (subAny i)) builder

/-- Register the instrumented any-backend after-hooks `ls` in order. -/
def anyChainA (ls : List Nat) :
    CallbackPluginBuilder Unit Unit (List SubEv) (List SubEv) :=
  ls.foldl (fun b i => b.with_after_any_subgraph (subAny i)) builder

/-- Builders reachable through the registration interface: the default
builder, closed under setter calls that return normally. -/
inductive Reachable {RQ PR RS SR : Type} :
    CallbackPluginBuilder RQ PR RS SR → Prop where
  | init : Reachable builder
  | wbr {b b2 : CallbackPluginBuilder RQ PR RS SR} {f : RQ → RQ} :
      Reachable b → b.with_before_router f = .ok b2 → Reachable b2
  | war {b b2 : CallbackPluginBuilder RQ PR RS SR} {f : RS → RS} :
      Reachable b → b.with_after_router f = .ok b2 → Reachable b2
  | wbqp {b b2 : CallbackPluginBuilder RQ PR RS SR} {f : RQ → RQ} :
      Reachable b → b.with_before_query_planning f = .ok b2 → Reachable b2
  | waqp {b b2 : CallbackPluginBuilder RQ PR RS SR} {f : PR → PR} :
      Reachable b → b.with_after_query_planning f = .ok b2 → Reachable b2
  | wbe {b b2 : CallbackPluginBuilder RQ PR RS SR} {f : PR → PR} :
      Reachable b → b.with_before_execution f = .ok b2 → Reachable b2
  | wae {b b2 : CallbackPluginBuilder RQ PR RS SR} {f : RS → RS} :
      Reachable b → b.with_after_execution f = .ok b2 → Reachable b2
  | wbas {b : CallbackPluginBuilder RQ PR RS SR} {f : SR → SR} :
      Reachable b → Reachable (b.with_before_any_subgraph f)
  | waas {b : CallbackPluginBuilder RQ PR RS SR} {f : RS → RS} :
      Reachable b → Reachable (b.with_after_any_subgraph f)
  | wbs {b b2 : CallbackPluginBuilder RQ PR RS SR} {n : String} {f : SR → SR} :
      Reachable b → b.with_before_subgraph n f = .ok b2 → Reachable b2
  | was {b b2 : CallbackPluginBuilder RQ PR RS SR} {n : String} {f : RS → RS} :
      Reachable b → b.with_after_subgraph n f = .ok b2 → Reachable b2

/-- Panic-aware semantics of the blanket implementation's `router_service`: a
user-supplied hook is arbitrary Rust code and may panic. When `map_request`'s
closure panics, the inner service is never invoked and the panic unwinds to
the caller; when the inner service panics, the panic unwinds likewise and
`map_response`'s closure never runs. -/
def router_serviceP (before : RQ → PanicOr RQ) (after : RS → RS)
    (s : RQ → PanicOr (Except Err RS)) : RQ → PanicOr (Except Err RS) :=
  fun req =>
    match before req with
    | .panicked msg => .panicked msg
    | .ok req2 =>
      match s req2 with
      | .panicked msg => .panicked msg
      | .ok r => .ok (r.map after)

/-- Modelled from the spec: a `BackendCall` of the ExecutionFanout (spec
sections 3 and 4.4) — the `ExecutionService` source is not under `src/`. A
call names a target backend and carries the payload to send it. -/
structure BackendCall (P : Type) where
  backend : String
  payload : P
deriving DecidableEq

/-- Modelled from the spec: the failure taxonomy of a single backend call —
an unresolvable backend name or a backend-reported/transport error. -/
inductive FanError (E : Type) where
  | unresolvable : String → FanError E
  | backendErr : E → FanError E
deriving DecidableEq

/-- Modelled from the spec: a backend registry entry serves one call. -/
abbrev BackendStage (P E : Type) := P → Except (FanError E) P

/-- Modelled from the spec: invoke the stage registered for the call's backend
name; an unknown name is an unresolvable-backend failure isolated to this
call. -/
def runCall {P E : Type} (registry : String → Option (BackendStage P E))
    (c : BackendCall P) : Except (FanError E) P :=
  match registry c.backend with
  | none => .error (.unresolvable c.backend)
  | some st => st c.payload

/-- Modelled from the spec: the merged output of the fan-out — successful
partial payloads in call order, one error entry per failed call tagged with
its backend name, and the total number of calls issued. -/
structure AggregateResponse (P E : Type) where
  payload : List P
  errors : List (String × FanError E)
  callCount : Nat
deriving DecidableEq

/-- Modelled from the spec: the merge step over the results listed in call
identity order. -/
def mergeResults {P E : Type} (plan : List (BackendCall P))
    (results : List (Except (FanError E) P)) : AggregateResponse P E :=
  { payload := results.filterMap Except.toOption,
    errors := (plan.zip results).filterMap (fun cr =>
      match cr.2 with
      | .error f => some (cr.1.backend, f)
      | .ok _ => none),
    callCount := plan.length }

/-- Modelled from the spec: `ExecutionFanout` issues every call of the plan
and merges the results collected by call identity. -/
def ExecutionFanout {P E : Type} (plan : List (BackendCall P))
    (registry : String → Option (BackendStage P E)) : AggregateResponse P E :=
  mergeResults plan (plan.map (runCall registry))

/-- Modelled from the spec: the stream of results as they complete, for an
arbitrary completion order given as a list of plan indices; each result is
tagged with its call identity (indices outside the plan produce nothing). -/
def arrivals {P E : Type} (plan : List (BackendCall P))
    (registry : String → Option (BackendStage P E)) :
    List Nat → List (Nat × Except (FanError E) P)
  | [] => []
  | i :: rest =>
    match plan[i]? with
    | none => arrivals plan registry rest
    | some c => (i, runCall registry c) :: arrivals plan registry rest

/-- Modelled from the spec: collect results by call identity; the merge
completes only once every listed identity has a result. -/
def collectIdx {P E : Type} (arr : List (Nat × Except (FanError E) P)) :
    List Nat → Option (List (Except (FanError E) P))
  | [] => some []
  | i :: is =>
    match arr.find? (fun p => p.1 == i) with
    | none => none
    | some p => (collectIdx arr is).map (fun rest => p.2 :: rest)

/-- Modelled from the spec: the fan-out as observed under a given completion
order — collect every call's result by identity, then merge. -/
def fanoutWithOrder {P E : Type} (plan : List (BackendCall P))
    (registry : String → Option (BackendStage P E)) (order : List Nat) :
    Option (AggregateResponse P E) :=
  (collectIdx (arrivals plan registry order) (List.range plan.length)).map
    (mergeResults plan)

/-- A builder holding one `before_router` hook, as produced by a first
`with_before_router` call. -/
def sampleBuilder1 : CallbackPluginBuilder Unit Unit Unit Unit :=
  { before_router := some (fun r => r) }

/-- A builder holding one name-specific before-hook for backend `books`. -/
def namedSample1 : CallbackPluginBuilder Unit Unit Unit Unit :=
  { before_subgraph := [("books", fun r => r)] }

/-- A builder holding name-specific before-hooks for `books` and `authors`,
as reached from `namedSample1` by one more `with_before_subgraph` call. -/
def namedSampleBA : CallbackPluginBuilder Unit Unit Unit Unit :=
  { before_subgraph := [("books", fun r => r), ("authors", fun r => r)] }

/-- A builder holding a name-specific before-hook and after-hook for `books`. -/
def namedSample2 : CallbackPluginBuilder Unit Unit Unit Unit :=
  { before_subgraph := [("books", fun r => r)],
    after_subgraph := [("books", fun r => r)] }

/-- The builder reached by calling `with_before_any_subgraph` twice. -/
def sampleAny2 : CallbackPluginBuilder Unit Unit Unit Unit :=
  (builder.with_before_any_subgraph (fun r => r)).with_before_any_subgraph
    (fun r => r)

/-- The builder reached by registering two instrumented any-backend
before-hooks and then a name-specific before-hook for `books`. -/
def c2wB : CallbackPluginBuilder Unit Unit (List SubEv) (List SubEv) :=
  { before_any_subgraph := [subAny 0, subAny 1],
    before_subgraph := [("books", subNamed)] }

/-- The builder reached by registering two instrumented any-backend
after-hooks and then a name-specific after-hook for `books`. -/
def c2wA : CallbackPluginBuilder Unit Unit (List SubEv) (List SubEv) :=
  { after_any_subgraph := [subAny 0, subAny 1],
    after_subgraph := [("books", subNamed)] }

/-- A concrete registry: `books` succeeds with a fixed payload, `authors`
always fails, nothing else is registered. -/
def sampleRegistry : String → Option (BackendStage String String) :=
  fun n =>
    if n = "books" then some (fun _ => .ok "title X")
    else if n = "authors" then some (fun _ => .error (.backendErr "unreachable"))
    else none

theorem applyPlugins_trace (ls : List Nat) (t : List Ev) :
    applyPlugins (ls.map traceP) baseStage t =
      Except.ok (t ++ ls.map Ev.before ++ [Ev.base] ++ (ls.map Ev.after).reverse) := by
  induction ls generalizing t with
  | nil => simp [applyPlugins, baseStage]
  | cons l ls ih =>
      show (applyPlugins (ls.map traceP) baseStage
          (t ++ [Ev.before l])).map (fun r => r ++ [Ev.after l]) = _
      rw [ih]
      simp [Except.map, List.append_assoc]

/-- Claim C1: decorating a base stage with a callback plugin via the blanket
`Plugin` implementation applies the before-hook to the request, invokes the
base stage on the transformed request, and applies the after-hook to the
result; consequently, applying an ordered plugin list P1..Pn to a base stage
(last-registered closest to the base) makes before-hooks run in order P1..Pn
on the request path and after-hooks in reverse order Pn..P1 on the response
path. -/
theorem claim_C1 :
    (∀ (A B C D E : Type) (p : CallbackPlugin A B C D)
        (s : Stage A C E) (req : A),
        router_service p s req = (s (p.before_router req)).map p.after_router) ∧
    (∀ ls : List Nat,
        applyPlugins (ls.map traceP) baseStage [] =
          Except.ok (ls.map Ev.before ++ [Ev.base] ++ (ls.map Ev.after).reverse)) := by
  constructor
  · intro A B C D E p s req
    rfl
  · intro ls
    have h := applyPlugins_trace ls []
    simpa using h

theorem except_map_id {α ε : Type} (e : Except ε α) : e.map (fun r => r) = e := by
  cases e <;> rfl

/-- Claim C5: every hook point left unset on a built adapter behaves as the
identity transform, and the default builder (no registrations at all)
decorates any base stage into an extensionally equal stage at all four hook
points. -/
theorem claim_C5 :
    (∀ (A B C D : Type) (b : CallbackPluginBuilder A B C D) (r : A),
        b.before_router = none → b.toCallbackPlugin.before_router r = r) ∧
    (∀ (A B C D : Type) (b : CallbackPluginBuilder A B C D) (r : C),
        b.after_router = none → b.toCallbackPlugin.after_router r = r) ∧
    (∀ (A B C D : Type) (b : CallbackPluginBuilder A B C D) (r : A),
        b.before_query_planning = none →
        b.toCallbackPlugin.before_query_planning r = r) ∧
    (∀ (A B C D : Type) (b : CallbackPluginBuilder A B C D) (r : B),
        b.after_query_planning = none →
        b.toCallbackPlugin.after_query_planning r = r) ∧
    (∀ (A B C D : Type) (b : CallbackPluginBuilder A B C D) (r : B),
        b.before_execution = none → b.toCallbackPlugin.before_execution r = r) ∧
    (∀ (A B C D : Type) (b : CallbackPluginBuilder A B C D) (r : C),
        b.after_execution = none → b.toCallbackPlugin.after_execution r = r) ∧
    (∀ (A B C D : Type) (b : CallbackPluginBuilder A B C D) (n : String) (r : D),
        b.before_any_subgraph = [] → lookupHook b.before_subgraph n = none →
        b.toCallbackPlugin.before_subgraph n r = r) ∧
    (∀ (A B C D : Type) (b : CallbackPluginBuilder A B C D) (n : String) (r : C),
        b.after_any_subgraph = [] → lookupHook b.after_subgraph n = none →
        b.toCallbackPlugin.after_subgraph n r = r) ∧
    (∀ (A B C D E : Type) (s : Stage A C E) (req : A),
        router_service (builder : CallbackPluginBuilder A B C D).toCallbackPlugin s req = s req) ∧
    (∀ (A B C D E : Type) (s : Stage A B E) (req : A),
        query_planning_service (builder : CallbackPluginBuilder A B C D).toCallbackPlugin s req = s req) ∧
    (∀ (A B C D E : Type) (s : Stage B C E) (req : B),
        execution_service (builder : CallbackPluginBuilder A B C D).toCallbackPlugin s req = s req) ∧
    (∀ (A B C D E : Type) (n : String) (s : Stage D C E) (req : D),
        subgraph_service (builder : CallbackPluginBuilder A B C D).toCallbackPlugin n s req = s req) := by
  refine ⟨?_, ?_, ?_, ?_, ?_, ?_, ?_, ?_, ?_, ?_, ?_, ?_⟩
  · intro A B C D b r h
    simp [CallbackPluginBuilder.toCallbackPlugin, h]
  · intro A B C D b r h
    simp [CallbackPluginBuilder.toCallbackPlugin, h]
  · intro A B C D b r h
    simp [CallbackPluginBuilder.toCallbackPlugin, h]
  · intro A B C D b r h
    simp [CallbackPluginBuilder.toCallbackPlugin, h]
  · intro A B C D b r h
    simp [CallbackPluginBuilder.toCallbackPlugin, h]
  · intro A B C D b r h
    simp [CallbackPluginBuilder.toCallbackPlugin, h]
  · intro A B C D b n r h1 h2
    simp [CallbackPluginBuilder.toCallbackPlugin, h1, h2]
  · intro A B C D b n r h1 h2
    simp [CallbackPluginBuilder.toCallbackPlugin, h1, h2]
  · intro A B C D E s req
    simp only [router_service, mapRequest, mapResponse, builder,
      CallbackPluginBuilder.toCallbackPlugin]
    exact except_map_id (s req)
  · intro A B C D E s req
    simp only [query_planning_service, mapRequest, mapResponse, builder,
      CallbackPluginBuilder.toCallbackPlugin]
    exact except_map_id (s req)
  · intro A B C D E s req
    simp only [execution_service, mapRequest, mapResponse, builder,
      CallbackPluginBuilder.toCallbackPlugin]
    exact except_map_id (s req)
  · intro A B C D E n s req
    simp only [subgraph_service, mapRequest, mapResponse, builder,
      CallbackPluginBuilder.toCallbackPlugin, lookupHook, List.foldl]
    exact except_map_id (s req)

/-- Witness for C5 at concrete inputs: a builder with a single named hook for
`books` leaves `before_router` and the subgraph transform for `authors` as
identities. -/
theorem claim_C5_witness :
    (namedSample1.toCallbackPlugin.before_router () = ()) ∧
    (namedSample1.toCallbackPlugin.before_subgraph "authors" () = ()) := by
  constructor
  · exact claim_C5.1 Unit Unit Unit Unit namedSample1 () rfl
  · exact claim_C5.2.2.2.2.2.2.1 Unit Unit Unit Unit namedSample1 "authors" () rfl rfl

/-- Claim C6: decoration never converts a base-stage failure into a success;
and, in the panic-aware semantics, a before-hook that fails means the wrapped
stage is never invoked (the outcome does not depend on it) and the failure
propagates exactly as a base-stage failure would. -/
theorem claim_C6 :
    (∀ (A B C D E : Type) (p : CallbackPlugin A B C D) (s : Stage A C E) (req : A),
        (s (p.before_router req)).isOk = false →
        (router_service p s req).isOk = false) ∧
    (∀ (A C E : Type) (before : A → PanicOr A) (after : C → C)
        (s s2 : A → PanicOr (Except E C)) (req : A) (msg : String),
        before req = .panicked msg →
        router_serviceP before after s req = .panicked msg ∧
        router_serviceP before after s req = router_serviceP before after s2 req ∧
        router_serviceP before after s req
          = router_serviceP (fun r => .ok r) after (fun _ => .panicked msg) req) := by
  constructor
  · intro A B C D E p s req h
    cases hres : s (p.before_router req) with
    | ok v => rw [hres] at h; simp [Except.isOk, Except.toBool] at h
    | error e =>
        simp [router_service, mapRequest, mapResponse, hres, Except.map,
          Except.isOk, Except.toBool]
  · intro A C E before after s s2 req msg h
    refine ⟨?_, ?_, ?_⟩ <;> simp [router_serviceP, h]

/-- Witness for C6 at concrete inputs: a base stage failing with `3` keeps the
decorated stage failing, and a panicking before-hook short-circuits two
different inner services to the same panic. -/
theorem claim_C6_witness :
    ((router_service ({ } : CallbackPlugin Unit Unit Unit Unit)
        (fun _ => (Except.error 3 : Except Nat Unit)) ()).isOk = false) ∧
    (router_serviceP (fun _ : Unit => PanicOr.panicked "hook boom") (fun r : Unit => r)
        (fun _ => PanicOr.ok (Except.ok () : Except Nat Unit)) ()
        = PanicOr.panicked "hook boom" ∧
      router_serviceP (fun _ : Unit => PanicOr.panicked "hook boom") (fun r : Unit => r)
        (fun _ => PanicOr.ok (Except.ok () : Except Nat Unit)) ()
        = router_serviceP (fun _ : Unit => PanicOr.panicked "hook boom") (fun r : Unit => r)
            (fun _ => PanicOr.ok (Except.error 3 : Except Nat Unit)) () ∧
      router_serviceP (fun _ : Unit => PanicOr.panicked "hook boom") (fun r : Unit => r)
        (fun _ => PanicOr.ok (Except.ok () : Except Nat Unit)) ()
        = router_serviceP (fun r : Unit => PanicOr.ok r) (fun r : Unit => r)
            (fun _ => (PanicOr.panicked "hook boom" : PanicOr (Except Nat Unit))) ()) := by
  constructor
  · exact claim_C6.1 Unit Unit Unit Unit Nat { } (fun _ => Except.error 3) () rfl
  · exact claim_C6.2 Unit Unit Nat (fun _ => PanicOr.panicked "hook boom")
      (fun r => r) (fun _ => PanicOr.ok (Except.ok ()))
      (fun _ => PanicOr.ok (Except.error 3)) () "hook boom" rfl

/-- Claim C10: when the base stage fails, the decorated stage returns that
same failure unchanged — the after-hook is applied only on the success branch,
never to the error. Shown for the router and subgraph hook points named by the
claim's sources. -/
theorem claim_C10 :
    (∀ (A B C D E : Type) (p : CallbackPlugin A B C D) (s : Stage A C E)
        (req : A) (e : E),
        s (p.before_router req) = .error e → router_service p s req = .error e) ∧
    (∀ (A B C D E : Type) (p : CallbackPlugin A B C D) (name : String)
        (s : Stage D C E) (req : D) (e : E),
        s (p.before_subgraph name req) = .error e →
        subgraph_service p name s req = .error e) := by
  constructor
  · intro A B C D E p s req e h
    simp [router_service, mapRequest, mapResponse, h, Except.map]
  · intro A B C D E p name s req e h
    simp [subgraph_service, mapRequest, mapResponse, h, Except.map]

/-- Witness for C10 at concrete inputs: a failing base stage's error `7` comes
through decorations whose after-hooks are not the identity. -/
theorem claim_C10_witness :
    (router_service ({ after_router := fun r => r + 1 } : CallbackPlugin Nat Nat Nat Nat)
        (fun _ => Except.error 7) 0 = Except.error 7) ∧
    (subgraph_service ({ after_subgraph := fun _ r => r + 1 } : CallbackPlugin Nat Nat Nat Nat)
        "books" (fun _ => Except.error 7) 0 = Except.error 7) := by
  constructor
  · exact claim_C10.1 Nat Nat Nat Nat Nat { after_router := fun r => r + 1 }
      (fun _ => Except.error 7) 0 7 rfl
  · exact claim_C10.2 Nat Nat Nat Nat Nat { after_subgraph := fun _ r => r + 1 }
      "books" (fun _ => Except.error 7) 0 7 rfl

/-- Claim C3 fails on the code: a second registration at an occupied hook slot
is not reported as a build-time configuration error — the setter itself
panics. `sampleBuilder1` is exactly the builder a first `with_before_router`
call returns, and the second call on it panics. -/
theorem claim_C3_counterexample :
    (builder : CallbackPluginBuilder Unit Unit Unit Unit).with_before_router
        (fun r => r) = .ok sampleBuilder1 ∧
    sampleBuilder1.with_before_router (fun r => r) = .panicked dupMsg :=
  ⟨rfl, rfl⟩

/-- Claim C3 as amended: calling a with-setter a second time for the same key
(same single-valued hook point, or same backend name for the named-backend
setters) panics at the setter call with the duplicate-registration message;
the builder is consumed by the panic, so nothing is silently overwritten and
no built plugin results. -/
theorem claim_C3 :
    (∀ (A B C D : Type) (b : CallbackPluginBuilder A B C D) (f : A → A),
        b.before_router.isSome = true → b.with_before_router f = .panicked dupMsg) ∧
    (∀ (A B C D : Type) (b : CallbackPluginBuilder A B C D) (f : C → C),
        b.after_router.isSome = true → b.with_after_router f = .panicked dupMsg) ∧
    (∀ (A B C D : Type) (b : CallbackPluginBuilder A B C D) (f : A → A),
        b.before_query_planning.isSome = true →
        b.with_before_query_planning f = .panicked dupMsg) ∧
    (∀ (A B C D : Type) (b : CallbackPluginBuilder A B C D) (f : B → B),
        b.after_query_planning.isSome = true →
        b.with_after_query_planning f = .panicked dupMsg) ∧
    (∀ (A B C D : Type) (b : CallbackPluginBuilder A B C D) (f : B → B),
        b.before_execution.isSome = true →
        b.with_before_execution f = .panicked dupMsg) ∧
    (∀ (A B C D : Type) (b : CallbackPluginBuilder A B C D) (f : C → C),
        b.after_execution.isSome = true →
        b.with_after_execution f = .panicked dupMsg) ∧
    (∀ (A B C D : Type) (b : CallbackPluginBuilder A B C D) (n : String) (f : D → D),
        (lookupHook b.before_subgraph n).isSome = true →
        b.with_before_subgraph n f = .panicked dupSubgraphMsg) ∧
    (∀ (A B C D : Type) (b : CallbackPluginBuilder A B C D) (n : String) (f : C → C),
        (lookupHook b.after_subgraph n).isSome = true →
        b.with_after_subgraph n f = .panicked dupSubgraphMsg) := by
  refine ⟨?_, ?_, ?_, ?_, ?_, ?_, ?_, ?_⟩
  · intro A B C D b f h
    simp [CallbackPluginBuilder.with_before_router, h]
  · intro A B C D b f h
    simp [CallbackPluginBuilder.with_after_router, h]
  · intro A B C D b f h
    simp [CallbackPluginBuilder.with_before_query_planning, h]
  · intro A B C D b f h
    simp [CallbackPluginBuilder.with_after_query_planning, h]
  · intro A B C D b f h
    simp [CallbackPluginBuilder.with_before_execution, h]
  · intro A B C D b f h
    simp [CallbackPluginBuilder.with_after_execution, h]
  · intro A B C D b n f h
    simp [CallbackPluginBuilder.with_before_subgraph, h]
  · intro A B C D b n f h
    simp [CallbackPluginBuilder.with_after_subgraph, h]

/-- Witness for the amended C3 at a concrete input: a second name-specific
registration for `books` panics. -/
theorem claim_C3_witness :
    namedSample1.with_before_subgraph "books" (fun r => r)
      = .panicked dupSubgraphMsg :=
  claim_C3.2.2.2.2.2.2.1 Unit Unit Unit Unit namedSample1 "books" (fun r => r) rfl

theorem foldl_wbas (ls : List Nat)
    (b : CallbackPluginBuilder Unit Unit (List SubEv) (List SubEv)) :
    ls.foldl (fun b i => b.with_before_any_subgraph (subAny i)) b
      = { b with before_any_subgraph := b.before_any_subgraph ++ ls.map subAny } := by
  induction ls generalizing b with
  | nil => simp
  | cons l ls ih =>
      rw [List.foldl_cons, ih]
      simp [CallbackPluginBuilder.with_before_any_subgraph, List.append_assoc]

theorem foldl_waas (ls : List Nat)
    (b : CallbackPluginBuilder Unit Unit (List SubEv) (List SubEv)) :
    ls.foldl (fun b i => b.with_after_any_subgraph (subAny i)) b
      = { b with after_any_subgraph := b.after_any_subgraph ++ ls.map subAny } := by
  induction ls generalizing b with
  | nil => simp
  | cons l ls ih =>
      rw [List.foldl_cons, ih]
      simp [CallbackPluginBuilder.with_after_any_subgraph, List.append_assoc]

theorem foldl_subAny (ls : List Nat) (t : List SubEv) :
    (ls.map subAny).foldl (fun r c => c r) t = t ++ ls.map SubEv.any := by
  induction ls generalizing t with
  | nil => simp
  | cons l ls ih => simp [subAny, ih, List.append_assoc]

/-- Claim C2: the composed subgraph before-transform applies the registered
any-backend before-hooks in registration order and then the name-specific
hook; the composed after-transform applies the name-specific hook first and
then the any-backend after-hooks in registration order. -/
theorem claim_C2 :
    (∀ (ls : List Nat) (n : String)
        (b2 : CallbackPluginBuilder Unit Unit (List SubEv) (List SubEv)),
        (anyChainB ls).with_before_subgraph n subNamed = .ok b2 →
        b2.toCallbackPlugin.before_subgraph n []
          = ls.map SubEv.any ++ [SubEv.named]) ∧
    (∀ (ls : List Nat) (n : String)
        (b2 : CallbackPluginBuilder Unit Unit (List SubEv) (List SubEv)),
        (anyChainA ls).with_after_subgraph n subNamed = .ok b2 →
        b2.toCallbackPlugin.after_subgraph n []
          = SubEv.named :: ls.map SubEv.any) := by
  constructor
  · intro ls n b2 h
    have hB : anyChainB ls
        = { before_any_subgraph := ls.map subAny } := by
      rw [anyChainB, foldl_wbas]
      rfl
    rw [hB] at h
    simp [CallbackPluginBuilder.with_before_subgraph, lookupHook] at h
    subst h
    simp [CallbackPluginBuilder.toCallbackPlugin, lookupHook, foldl_subAny, subNamed]
  · intro ls n b2 h
    have hA : anyChainA ls
        = { after_any_subgraph := ls.map subAny } := by
      rw [anyChainA, foldl_waas]
      rfl
    rw [hA] at h
    simp [CallbackPluginBuilder.with_after_subgraph, lookupHook] at h
    subst h
    simp [CallbackPluginBuilder.toCallbackPlugin, lookupHook, foldl_subAny, subNamed]

/-- Witness for C2 at concrete inputs: two any-backend hooks and one named
hook for `books`, observed on an empty log. -/
theorem claim_C2_witness :
    (c2wB.toCallbackPlugin.before_subgraph "books" []
      = [SubEv.any 0, SubEv.any 1, SubEv.named]) ∧
    (c2wA.toCallbackPlugin.after_subgraph "books" []
      = [SubEv.named, SubEv.any 0, SubEv.any 1]) := by
  constructor
  · exact claim_C2.1 [0, 1] "books" c2wB rfl
  · exact claim_C2.2 [0, 1] "books" c2wA rfl

theorem with_before_router_ok {A B C D : Type} {b b2 : CallbackPluginBuilder A B C D}
    {f : A → A} (h : b.with_before_router f = .ok b2) :
    b2 = { b with before_router := some f } := by
  rw [CallbackPluginBuilder.with_before_router] at h
  split at h
  · exact PanicOr.noConfusion h
  · injection h with h2
    exact h2.symm

theorem with_after_router_ok {A B C D : Type} {b b2 : CallbackPluginBuilder A B C D}
    {f : C → C} (h : b.with_after_router f = .ok b2) :
    b2 = { b with after_router := some f } := by
  rw [CallbackPluginBuilder.with_after_router] at h
  split at h
  · exact PanicOr.noConfusion h
  · injection h with h2
    exact h2.symm

theorem with_before_query_planning_ok {A B C D : Type}
    {b b2 : CallbackPluginBuilder A B C D} {f : A → A}
    (h : b.with_before_query_planning f = .ok b2) :
    b2 = { b with before_query_planning := some f } := by
  rw [CallbackPluginBuilder.with_before_query_planning] at h
  split at h
  · exact PanicOr.noConfusion h
  · injection h with h2
    exact h2.symm

theorem with_after_query_planning_ok {A B C D : Type}
    {b b2 : CallbackPluginBuilder A B C D} {f : B → B}
    (h : b.with_after_query_planning f = .ok b2) :
    b2 = { b with after_query_planning := some f } := by
  rw [CallbackPluginBuilder.with_after_query_planning] at h
  split at h
  · exact PanicOr.noConfusion h
  · injection h with h2
    exact h2.symm

theorem with_before_execution_ok {A B C D : Type}
    {b b2 : CallbackPluginBuilder A B C D} {f : B → B}
    (h : b.with_before_execution f = .ok b2) :
    b2 = { b with before_execution := some f } := by
  rw [CallbackPluginBuilder.with_before_execution] at h
  split at h
  · exact PanicOr.noConfusion h
  · injection h with h2
    exact h2.symm

theorem with_after_execution_ok {A B C D : Type}
    {b b2 : CallbackPluginBuilder A B C D} {f : C → C}
    (h : b.with_after_execution f = .ok b2) :
    b2 = { b with after_execution := some f } := by
  rw [CallbackPluginBuilder.with_after_execution] at h
  split at h
  · exact PanicOr.noConfusion h
  · injection h with h2
    exact h2.symm

theorem with_before_subgraph_ok {A B C D : Type}
    {b b2 : CallbackPluginBuilder A B C D} {n : String} {f : D → D}
    (h : b.with_before_subgraph n f = .ok b2) :
    lookupHook b.before_subgraph n = none ∧
    b2 = { b with before_subgraph := b.before_subgraph ++ [(n, f)] } := by
  rw [CallbackPluginBuilder.with_before_subgraph] at h
  split at h
  next hc => exact PanicOr.noConfusion h
  next hc =>
    injection h with h2
    refine ⟨?_, h2.symm⟩
    cases hl : lookupHook b.before_subgraph n with
    | none => rfl
    | some v => rw [hl] at hc; simp at hc

theorem with_after_subgraph_ok {A B C D : Type}
    {b b2 : CallbackPluginBuilder A B C D} {n : String} {f : C → C}
    (h : b.with_after_subgraph n f = .ok b2) :
    lookupHook b.after_subgraph n = none ∧
    b2 = { b with after_subgraph := b.after_subgraph ++ [(n, f)] } := by
  rw [CallbackPluginBuilder.with_after_subgraph] at h
  split at h
  next hc => exact PanicOr.noConfusion h
  next hc =>
    injection h with h2
    refine ⟨?_, h2.symm⟩
    cases hl : lookupHook b.after_subgraph n with
    | none => rfl
    | some v => rw [hl] at hc; simp at hc

theorem lookupHook_none_not_mem {α : Type} (l : List (String × α)) (n : String)
    (h : lookupHook l n = none) : n ∉ l.map Prod.fst := by
  induction l with
  | nil => simp
  | cons a l ih =>
      cases a with
      | mk k v =>
          by_cases hk : k = n
          · simp [lookupHook, hk] at h
          · rw [lookupHook, if_neg hk] at h
            simp only [List.map_cons, List.mem_cons, not_or]
            exact ⟨fun he => hk he.symm, ih h⟩

theorem nodup_append_singleton {α : Type} (l : List α) (x : α)
    (hl : l.Nodup) (hx : x ∉ l) : (l ++ [x]).Nodup := by
  induction l with
  | nil => simp
  | cons a l ih =>
      rw [List.nodup_cons] at hl
      have hx2 : x ∉ l := fun h => hx (List.mem_cons_of_mem a h)
      have hxa : x ≠ a := fun h => hx (by rw [h]; exact List.mem_cons_self a l)
      rw [List.cons_append, List.nodup_cons]
      refine ⟨?_, ih hl.2 hx2⟩
      intro hmem
      rcases List.mem_append.mp hmem with h1 | h2
      · exact hl.1 h1
      · exact hxa (List.mem_singleton.mp h2).symm

/-- Claim C4 as amended: every builder reachable through the registration
interface keeps at most one transform per named-backend (hook point, backend
name) pair — the keys of both name-keyed maps stay pairwise distinct; the
single-valued hook points hold at most one transform by construction. The
any-backend hook points, however, are lists that accept any number of
registrations (see the counterexample). -/
theorem claim_C4 :
    ∀ (A B C D : Type) (b : CallbackPluginBuilder A B C D), Reachable b →
      (b.before_subgraph.map Prod.fst).Nodup ∧
      (b.after_subgraph.map Prod.fst).Nodup := by
  intro A B C D b hb
  induction hb with
  | init => exact ⟨by simp [builder], by simp [builder]⟩
  | @wbr b b2 f hb hs ih => rw [with_before_router_ok hs]; exact ih
  | @war b b2 f hb hs ih => rw [with_after_router_ok hs]; exact ih
  | @wbqp b b2 f hb hs ih => rw [with_before_query_planning_ok hs]; exact ih
  | @waqp b b2 f hb hs ih => rw [with_after_query_planning_ok hs]; exact ih
  | @wbe b b2 f hb hs ih => rw [with_before_execution_ok hs]; exact ih
  | @wae b b2 f hb hs ih => rw [with_after_execution_ok hs]; exact ih
  | @wbas b f hb ih => exact ih
  | @waas b f hb ih => exact ih
  | @wbs b b2 n f hb hs ih =>
      obtain ⟨hnone, hb2⟩ := with_before_subgraph_ok hs
      subst hb2
      refine ⟨?_, ih.2⟩
      show ((b.before_subgraph ++ [(n, f)]).map Prod.fst).Nodup
      rw [List.map_append]
      exact nodup_append_singleton _ _ ih.1 (lookupHook_none_not_mem _ _ hnone)
  | @was b b2 n f hb hs ih =>
      obtain ⟨hnone, hb2⟩ := with_after_subgraph_ok hs
      subst hb2
      refine ⟨ih.1, ?_⟩
      show ((b.after_subgraph ++ [(n, f)]).map Prod.fst).Nodup
      rw [List.map_append]
      exact nodup_append_singleton _ _ ih.2 (lookupHook_none_not_mem _ _ hnone)

/-- Claim C4 fails on the code for the any-backend hook points: two
`with_before_any_subgraph` calls are both kept, so a builder reachable
through the registration interface holds two transforms for the
(subgraph hook point, no backend name) pair — with no error raised. -/
theorem claim_C4_counterexample :
    Reachable sampleAny2 ∧ ¬ sampleAny2.before_any_subgraph.length ≤ 1 := by
  constructor
  · exact Reachable.wbas (Reachable.wbas Reachable.init)
  · decide

/-- Witness for the amended C4 at a concrete reachable builder holding one
named before-hook and one named after-hook for `books`. -/
theorem claim_C4_witness :
    (namedSample2.before_subgraph.map Prod.fst).Nodup ∧
    (namedSample2.after_subgraph.map Prod.fst).Nodup := by
  have h1 : Reachable namedSample1 := Reachable.wbs Reachable.init rfl
  have h2 : Reachable namedSample2 := Reachable.was h1 rfl
  exact claim_C4 Unit Unit Unit Unit namedSample2 h2

theorem lookupHook_append_ne {α : Type} (l : List (String × α)) (m n : String)
    (f : α) (h : m ≠ n) : lookupHook (l ++ [(m, f)]) n = lookupHook l n := by
  induction l with
  | nil => simp [lookupHook, h]
  | cons a l ih =>
      cases a with
      | mk k v => by_cases hk : k = n <;> simp [lookupHook, hk, ih]

/-- Claim C8: when no name-specific hook is registered for a backend name, the
composed subgraph transforms are exactly the fold of the any-backend hooks;
and registering a name-specific hook under a different name never changes the
transforms applied for the given name. -/
theorem claim_C8 :
    (∀ (A B C D : Type) (b : CallbackPluginBuilder A B C D) (n : String) (req : D),
        lookupHook b.before_subgraph n = none →
        b.toCallbackPlugin.before_subgraph n req
          = b.before_any_subgraph.foldl (fun r c => c r) req) ∧
    (∀ (A B C D : Type) (b : CallbackPluginBuilder A B C D) (n : String) (res : C),
        lookupHook b.after_subgraph n = none →
        b.toCallbackPlugin.after_subgraph n res
          = b.after_any_subgraph.foldl (fun r c => c r) res) ∧
    (∀ (A B C D : Type) (b b2 : CallbackPluginBuilder A B C D) (m n : String)
        (f : D → D) (req : D), m ≠ n → b.with_before_subgraph m f = .ok b2 →
        b2.toCallbackPlugin.before_subgraph n req
          = b.toCallbackPlugin.before_subgraph n req) ∧
    (∀ (A B C D : Type) (b b2 : CallbackPluginBuilder A B C D) (m n : String)
        (f : C → C) (res : C), m ≠ n → b.with_after_subgraph m f = .ok b2 →
        b2.toCallbackPlugin.after_subgraph n res
          = b.toCallbackPlugin.after_subgraph n res) := by
  refine ⟨?_, ?_, ?_, ?_⟩
  · intro A B C D b n req h
    simp [CallbackPluginBuilder.toCallbackPlugin, h]
  · intro A B C D b n res h
    simp [CallbackPluginBuilder.toCallbackPlugin, h]
  · intro A B C D b b2 m n f req hmn h
    rw [CallbackPluginBuilder.with_before_subgraph] at h
    split at h
    · exact PanicOr.noConfusion h
    · injection h with h2
      subst h2
      simp [CallbackPluginBuilder.toCallbackPlugin, lookupHook_append_ne _ _ _ _ hmn]
  · intro A B C D b b2 m n f res hmn h
    rw [CallbackPluginBuilder.with_after_subgraph] at h
    split at h
    · exact PanicOr.noConfusion h
    · injection h with h2
      subst h2
      simp [CallbackPluginBuilder.toCallbackPlugin, lookupHook_append_ne _ _ _ _ hmn]

/-- Witness for C8 at concrete inputs: with no hook registered for `books`
the empty any-hook fold applies, and registering a hook for `authors` leaves
the transform for `books` untouched. -/
theorem claim_C8_witness :
    ((builder : CallbackPluginBuilder Unit Unit Unit Unit).toCallbackPlugin.before_subgraph
        "books" () = ()) ∧
    (namedSampleBA.toCallbackPlugin.before_subgraph "books" ()
      = namedSample1.toCallbackPlugin.before_subgraph "books" ()) := by
  constructor
  · exact claim_C8.1 Unit Unit Unit Unit builder "books" () rfl
  · exact claim_C8.2.2.1 Unit Unit Unit Unit namedSample1 namedSampleBA
      "authors" "books" (fun r => r) () (by decide) rfl


/-- Claim C9: every with-setter modifies only its own hook slot — after a
setter call that returns normally, every other hook field of the builder is
unchanged, and the setter's own slot holds exactly the new hook (appended,
for the list- and map-valued slots). -/
theorem claim_C9 :
    (∀ (A B C D : Type) (b b2 : CallbackPluginBuilder A B C D) (f : A → A),
        b.with_before_router f = .ok b2 →
        b2.before_router = some f ∧ b2.after_router = b.after_router ∧
        b2.before_query_planning = b.before_query_planning ∧
        b2.after_query_planning = b.after_query_planning ∧
        b2.before_execution = b.before_execution ∧
        b2.after_execution = b.after_execution ∧
        b2.before_any_subgraph = b.before_any_subgraph ∧
        b2.after_any_subgraph = b.after_any_subgraph ∧
        b2.before_subgraph = b.before_subgraph ∧
        b2.after_subgraph = b.after_subgraph) ∧
    (∀ (A B C D : Type) (b b2 : CallbackPluginBuilder A B C D) (f : C → C),
        b.with_after_router f = .ok b2 →
        b2.after_router = some f ∧ b2.before_router = b.before_router ∧
        b2.before_query_planning = b.before_query_planning ∧
        b2.after_query_planning = b.after_query_planning ∧
        b2.before_execution = b.before_execution ∧
        b2.after_execution = b.after_execution ∧
        b2.before_any_subgraph = b.before_any_subgraph ∧
        b2.after_any_subgraph = b.after_any_subgraph ∧
        b2.before_subgraph = b.before_subgraph ∧
        b2.after_subgraph = b.after_subgraph) ∧
    (∀ (A B C D : Type) (b b2 : CallbackPluginBuilder A B C D) (f : A → A),
        b.with_before_query_planning f = .ok b2 →
        b2.before_query_planning = some f ∧ b2.before_router = b.before_router ∧
        b2.after_router = b.after_router ∧
        b2.after_query_planning = b.after_query_planning ∧
        b2.before_execution = b.before_execution ∧
        b2.after_execution = b.after_execution ∧
        b2.before_any_subgraph = b.before_any_subgraph ∧
        b2.after_any_subgraph = b.after_any_subgraph ∧
        b2.before_subgraph = b.before_subgraph ∧
        b2.after_subgraph = b.after_subgraph) ∧
    (∀ (A B C D : Type) (b b2 : CallbackPluginBuilder A B C D) (f : B → B),
        b.with_after_query_planning f = .ok b2 →
        b2.after_query_planning = some f ∧ b2.before_router = b.before_router ∧
        b2.after_router = b.after_router ∧
        b2.before_query_planning = b.before_query_planning ∧
        b2.before_execution = b.before_execution ∧
        b2.after_execution = b.after_execution ∧
        b2.before_any_subgraph = b.before_any_subgraph ∧
        b2.after_any_subgraph = b.after_any_subgraph ∧
        b2.before_subgraph = b.before_subgraph ∧
        b2.after_subgraph = b.after_subgraph) ∧
    (∀ (A B C D : Type) (b b2 : CallbackPluginBuilder A B C D) (f : B → B),
        b.with_before_execution f = .ok b2 →
        b2.before_execution = some f ∧ b2.before_router = b.before_router ∧
        b2.after_router = b.after_router ∧
        b2.before_query_planning = b.before_query_planning ∧
        b2.after_query_planning = b.after_query_planning ∧
        b2.after_execution = b.after_execution ∧
        b2.before_any_subgraph = b.before_any_subgraph ∧
        b2.after_any_subgraph = b.after_any_subgraph ∧
        b2.before_subgraph = b.before_subgraph ∧
        b2.after_subgraph = b.after_subgraph) ∧
    (∀ (A B C D : Type) (b b2 : CallbackPluginBuilder A B C D) (f : C → C),
        b.with_after_execution f = .ok b2 →
        b2.after_execution = some f ∧ b2.before_router = b.before_router ∧
        b2.after_router = b.after_router ∧
        b2.before_query_planning = b.before_query_planning ∧
        b2.after_query_planning = b.after_query_planning ∧
        b2.before_execution = b.before_execution ∧
        b2.before_any_subgraph = b.before_any_subgraph ∧
        b2.after_any_subgraph = b.after_any_subgraph ∧
        b2.before_subgraph = b.before_subgraph ∧
        b2.after_subgraph = b.after_subgraph) ∧
    (∀ (A B C D : Type) (b : CallbackPluginBuilder A B C D) (f : D → D),
        (b.with_before_any_subgraph f).before_any_subgraph
            = b.before_any_subgraph ++ [f] ∧
        (b.with_before_any_subgraph f).before_router = b.before_router ∧
        (b.with_before_any_subgraph f).after_router = b.after_router ∧
        (b.with_before_any_subgraph f).before_query_planning = b.before_query_planning ∧
        (b.with_before_any_subgraph f).after_query_planning = b.after_query_planning ∧
        (b.with_before_any_subgraph f).before_execution = b.before_execution ∧
        (b.with_before_any_subgraph f).after_execution = b.after_execution ∧
        (b.with_before_any_subgraph f).after_any_subgraph = b.after_any_subgraph ∧
        (b.with_before_any_subgraph f).before_subgraph = b.before_subgraph ∧
        (b.with_before_any_subgraph f).after_subgraph = b.after_subgraph) ∧
    (∀ (A B C D : Type) (b : CallbackPluginBuilder A B C D) (f : C → C),
        (b.with_after_any_subgraph f).after_any_subgraph
            = b.after_any_subgraph ++ [f] ∧
        (b.with_after_any_subgraph f).before_router = b.before_router ∧
        (b.with_after_any_subgraph f).after_router = b.after_router ∧
        (b.with_after_any_subgraph f).before_query_planning = b.before_query_planning ∧
        (b.with_after_any_subgraph f).after_query_planning = b.after_query_planning ∧
        (b.with_after_any_subgraph f).before_execution = b.before_execution ∧
        (b.with_after_any_subgraph f).after_execution = b.after_execution ∧
        (b.with_after_any_subgraph f).before_any_subgraph = b.before_any_subgraph ∧
        (b.with_after_any_subgraph f).before_subgraph = b.before_subgraph ∧
        (b.with_after_any_subgraph f).after_subgraph = b.after_subgraph) ∧
    (∀ (A B C D : Type) (b b2 : CallbackPluginBuilder A B C D) (n : String) (f : D → D),
        b.with_before_subgraph n f = .ok b2 →
        b2.before_subgraph = b.before_subgraph ++ [(n, f)] ∧
        b2.before_router = b.before_router ∧
        b2.after_router = b.after_router ∧
        b2.before_query_planning = b.before_query_planning ∧
        b2.after_query_planning = b.after_query_planning ∧
        b2.before_execution = b.before_execution ∧
        b2.after_execution = b.after_execution ∧
        b2.before_any_subgraph = b.before_any_subgraph ∧
        b2.after_any_subgraph = b.after_any_subgraph ∧
        b2.after_subgraph = b.after_subgraph) ∧
    (∀ (A B C D : Type) (b b2 : CallbackPluginBuilder A B C D) (n : String) (f : C → C),
        b.with_after_subgraph n f = .ok b2 →
        b2.after_subgraph = b.after_subgraph ++ [(n, f)] ∧
        b2.before_router = b.before_router ∧
        b2.after_router = b.after_router ∧
        b2.before_query_planning = b.before_query_planning ∧
        b2.after_query_planning = b.after_query_planning ∧
        b2.before_execution = b.before_execution ∧
        b2.after_execution = b.after_execution ∧
        b2.before_any_subgraph = b.before_any_subgraph ∧
        b2.after_any_subgraph = b.after_any_subgraph ∧
        b2.before_subgraph = b.before_subgraph) := by
  refine ⟨?_, ?_, ?_, ?_, ?_, ?_, ?_, ?_, ?_, ?_⟩
  · intro A B C D b b2 f h
    rw [with_before_router_ok h]
    exact ⟨rfl, rfl, rfl, rfl, rfl, rfl, rfl, rfl, rfl, rfl⟩
  · intro A B C D b b2 f h
    rw [with_after_router_ok h]
    exact ⟨rfl, rfl, rfl, rfl, rfl, rfl, rfl, rfl, rfl, rfl⟩
  · intro A B C D b b2 f h
    rw [with_before_query_planning_ok h]
    exact ⟨rfl, rfl, rfl, rfl, rfl, rfl, rfl, rfl, rfl, rfl⟩
  · intro A B C D b b2 f h
    rw [with_after_query_planning_ok h]
    exact ⟨rfl, rfl, rfl, rfl, rfl, rfl, rfl, rfl, rfl, rfl⟩
  · intro A B C D b b2 f h
    rw [with_before_execution_ok h]
    exact ⟨rfl, rfl, rfl, rfl, rfl, rfl, rfl, rfl, rfl, rfl⟩
  · intro A B C D b b2 f h
    rw [with_after_execution_ok h]
    exact ⟨rfl, rfl, rfl, rfl, rfl, rfl, rfl, rfl, rfl, rfl⟩
  · intro A B C D b f
    exact ⟨rfl, rfl, rfl, rfl, rfl, rfl, rfl, rfl, rfl, rfl⟩
  · intro A B C D b f
    exact ⟨rfl, rfl, rfl, rfl, rfl, rfl, rfl, rfl, rfl, rfl⟩
  · intro A B C D b b2 n f h
    rw [(with_before_subgraph_ok h).2]
    exact ⟨rfl, rfl, rfl, rfl, rfl, rfl, rfl, rfl, rfl, rfl⟩
  · intro A B C D b b2 n f h
    rw [(with_after_subgraph_ok h).2]
    exact ⟨rfl, rfl, rfl, rfl, rfl, rfl, rfl, rfl, rfl, rfl⟩

/-- Witness for C9 at a concrete input: registering `before_router` on the
empty builder sets only that slot. -/
theorem claim_C9_witness :
    sampleBuilder1.before_router = some (fun r => r) ∧
    sampleBuilder1.after_router
      = (builder : CallbackPluginBuilder Unit Unit Unit Unit).after_router ∧
    sampleBuilder1.before_query_planning
      = (builder : CallbackPluginBuilder Unit Unit Unit Unit).before_query_planning ∧
    sampleBuilder1.after_query_planning
      = (builder : CallbackPluginBuilder Unit Unit Unit Unit).after_query_planning ∧
    sampleBuilder1.before_execution
      = (builder : CallbackPluginBuilder Unit Unit Unit Unit).before_execution ∧
    sampleBuilder1.after_execution
      = (builder : CallbackPluginBuilder Unit Unit Unit Unit).after_execution ∧
    sampleBuilder1.before_any_subgraph
      = (builder : CallbackPluginBuilder Unit Unit Unit Unit).before_any_subgraph ∧
    sampleBuilder1.after_any_subgraph
      = (builder : CallbackPluginBuilder Unit Unit Unit Unit).after_any_subgraph ∧
    sampleBuilder1.before_subgraph
      = (builder : CallbackPluginBuilder Unit Unit Unit Unit).before_subgraph ∧
    sampleBuilder1.after_subgraph
      = (builder : CallbackPluginBuilder Unit Unit Unit Unit).after_subgraph :=
  claim_C9.1 Unit Unit Unit Unit builder sampleBuilder1 (fun r => r) rfl

theorem arrivals_find {P E : Type} (plan : List (BackendCall P))
    (registry : String → Option (BackendStage P E)) (order : List Nat)
    (i : Nat) (c : BackendCall P) (hc : plan[i]? = some c) (hmem : i ∈ order) :
    (arrivals plan registry order).find? (fun p => p.1 == i)
      = some (i, runCall registry c) := by
  induction order with
  | nil => cases hmem
  | cons j rest ih =>
      by_cases hji : j = i
      · subst hji
        simp [arrivals, hc, List.find?]
      · have hmem2 : i ∈ rest := by
          rcases List.mem_cons.mp hmem with h | h
          · exact absurd h.symm hji
          · exact h
        have hne : (j == i) = false := by simpa using hji
        cases hj : plan[j]? with
        | none =>
            simpa [arrivals, hj] using ih hmem2
        | some cj =>
            simpa [arrivals, hj, List.find?, hne] using ih hmem2

theorem collectIdx_all {P E : Type} (plan : List (BackendCall P))
    (registry : String → Option (BackendStage P E)) (order : List Nat)
    (is : List Nat)
    (h : ∀ i ∈ is, (∃ c, plan[i]? = some c) ∧ i ∈ order) :
    collectIdx (arrivals plan registry order) is
      = some (is.filterMap (fun i => (plan[i]?).map (runCall registry))) := by
  induction is with
  | nil => rfl
  | cons i is ih =>
      obtain ⟨⟨c, hc⟩, hmem⟩ := h i (List.mem_cons_self i is)
      have hfind := arrivals_find plan registry order i c hc hmem
      have hrest := ih (fun j hj => h j (List.mem_cons_of_mem i hj))
      simp [collectIdx, hfind, hrest, List.filterMap_cons, hc]

theorem range_filterMap_get {α β : Type} (l : List α) (g : α → β) :
    (List.range l.length).filterMap (fun i => (l[i]?).map g) = l.map g := by
  induction l with
  | nil => rfl
  | cons a l ih =>
      rw [List.length_cons, List.range_succ_eq_map, List.filterMap_cons]
      have hcomp : ((fun i => ((a :: l)[i]?).map g) ∘ Nat.succ)
          = fun i => (l[i]?).map g := by
        funext i
        simp
      simp [List.filterMap_map, hcomp, ih]

theorem fanoutWithOrder_perm {P E : Type} (plan : List (BackendCall P))
    (registry : String → Option (BackendStage P E)) (order : List Nat)
    (hperm : order.Perm (List.range plan.length)) :
    fanoutWithOrder plan registry order = some (ExecutionFanout plan registry) := by
  have hall : ∀ i ∈ List.range plan.length,
      (∃ c, plan[i]? = some c) ∧ i ∈ order := by
    intro i hi
    have hlt : i < plan.length := List.mem_range.mp hi
    refine ⟨⟨plan.get ⟨i, hlt⟩, ?_⟩, ?_⟩
    · rw [List.getElem?_eq_getElem hlt]
      rfl
    · exact hperm.mem_iff.mpr hi
  simp only [fanoutWithOrder]
  rw [collectIdx_all plan registry order _ hall, range_filterMap_get]
  rfl

theorem zip_map_self {α β : Type} (l : List α) (g : α → β) :
    l.zip (l.map g) = l.map (fun a => (a, g a)) := by
  have h := List.zip_map' (fun a => a) g l
  simpa using h

theorem filterMap_errSel_ok {P E : Type}
    (registry : String → Option (BackendStage P E)) (l : List (BackendCall P))
    (h : ∀ c ∈ l, (runCall registry c).toOption.isSome = true) :
    l.filterMap (fun c =>
        match runCall registry c with
        | .error f => some (c.backend, f)
        | .ok _ => none) = [] := by
  induction l with
  | nil => rfl
  | cons a l ih =>
      have ha := h a (List.mem_cons_self a l)
      cases hra : runCall registry a with
      | ok p =>
          simp [List.filterMap_cons, hra,
            ih (fun c hc => h c (List.mem_cons_of_mem a hc))]
      | error f =>
          rw [hra] at ha
          simp [Except.toOption] at ha

theorem filterMap_toOption_ok_length {P E : Type}
    (registry : String → Option (BackendStage P E)) (l : List (BackendCall P))
    (h : ∀ c ∈ l, (runCall registry c).toOption.isSome = true) :
    (l.filterMap (fun c => (runCall registry c).toOption)).length = l.length := by
  induction l with
  | nil => rfl
  | cons a l ih =>
      have ha := h a (List.mem_cons_self a l)
      cases hra : runCall registry a with
      | ok p =>
          have hto : (runCall registry a).toOption = some p := by rw [hra]; rfl
          have hlen := ih (fun c hc => h c (List.mem_cons_of_mem a hc))
          simp [List.filterMap_cons, hto, hlen]
      | error f =>
          rw [hra] at ha
          simp [Except.toOption] at ha

theorem ExecutionFanout_eq {P E : Type} (plan : List (BackendCall P))
    (registry : String → Option (BackendStage P E)) :
    ExecutionFanout plan registry
      = { payload := plan.filterMap (fun c => (runCall registry c).toOption),
          errors := plan.filterMap (fun c =>
            match runCall registry c with
            | .error f => some (c.backend, f)
            | .ok _ => none),
          callCount := plan.length } := by
  simp only [ExecutionFanout, mergeResults]
  congr 1
  · rw [List.filterMap_map]
    rfl
  · rw [zip_map_self, List.filterMap_map]
    rfl

/-- Claim C7: for a plan of k ≥ 2 independent calls in which exactly the call
`ci` fails and the rest succeed, the fan-out — under every completion order —
yields the order-independent aggregate whose payload merges the k−1
successful partial results, whose error list is exactly one entry tagged to
the failing call's backend, and whose recorded call count is k. -/
theorem claim_C7 :
    ∀ (P E : Type) (registry : String → Option (BackendStage P E))
      (pre post : List (BackendCall P)) (ci : BackendCall P) (fe : FanError E)
      (order : List Nat),
      (∀ c ∈ pre, (runCall registry c).toOption.isSome = true) →
      (∀ c ∈ post, (runCall registry c).toOption.isSome = true) →
      runCall registry ci = .error fe →
      2 ≤ (pre ++ ci :: post).length →
      order.Perm (List.range (pre ++ ci :: post).length) →
      fanoutWithOrder (pre ++ ci :: post) registry order
          = some (ExecutionFanout (pre ++ ci :: post) registry) ∧
      (ExecutionFanout (pre ++ ci :: post) registry).errors = [(ci.backend, fe)] ∧
      (ExecutionFanout (pre ++ ci :: post) registry).payload.length
          = pre.length + post.length ∧
      (ExecutionFanout (pre ++ ci :: post) registry).callCount
          = (pre ++ ci :: post).length := by
  intro P E registry pre post ci fe order hpre hpost hfail hk hperm
  refine ⟨fanoutWithOrder_perm _ _ _ hperm, ?_, ?_, ?_⟩
  · rw [ExecutionFanout_eq]
    show (pre ++ ci :: post).filterMap (fun c =>
        match runCall registry c with
        | .error f => some (c.backend, f)
        | .ok _ => none) = [(ci.backend, fe)]
    rw [List.filterMap_append, filterMap_errSel_ok registry pre hpre,
      List.filterMap_cons]
    simp [hfail, filterMap_errSel_ok registry post hpost]
  · rw [ExecutionFanout_eq]
    show ((pre ++ ci :: post).filterMap
        (fun c => (runCall registry c).toOption)).length
      = pre.length + post.length
    have hto : (runCall registry ci).toOption = none := by rw [hfail]; rfl
    rw [List.filterMap_append]
    simp only [List.filterMap_cons, hto]
    rw [List.length_append,
      filterMap_toOption_ok_length registry pre hpre,
      filterMap_toOption_ok_length registry post hpost]
  · rw [ExecutionFanout_eq]

/-- Witness for C7 at concrete inputs: plan `[books, authors]` with `authors`
failing, observed under the reversed completion order `[1, 0]`. -/
theorem claim_C7_witness :
    fanoutWithOrder [⟨"books", "q1"⟩, ⟨"authors", "q2"⟩] sampleRegistry [1, 0]
        = some (ExecutionFanout [⟨"books", "q1"⟩, ⟨"authors", "q2"⟩] sampleRegistry) ∧
    (ExecutionFanout [⟨"books", "q1"⟩, ⟨"authors", "q2"⟩] sampleRegistry).errors
        = [("authors", FanError.backendErr "unreachable")] ∧
    (ExecutionFanout [⟨"books", "q1"⟩, ⟨"authors", "q2"⟩] sampleRegistry).payload.length
        = 1 ∧
    (ExecutionFanout [⟨"books", "q1"⟩, ⟨"authors", "q2"⟩] sampleRegistry).callCount
        = 2 := by
  have h := claim_C7 String String sampleRegistry [⟨"books", "q1"⟩] []
    ⟨"authors", "q2"⟩ (FanError.backendErr "unreachable") [1, 0]
    (by decide) (by decide) rfl (by decide) (by decide)
  exact h
